import Mathlib

/-!
Verification of the linking subsystem of the papyrus repository.

The development shallowly embeds `src/pfh/linking.rs`: the
`LinkingConfiguration` record, artifact resolution (`get_rlib_path`),
staging (`fs::copy` inside `link_external_crate`), descriptor attachment
(`with_data`) and parameter-text generation (`construct_fn_args`), plus
the argument-shape dispatch of the `repl_data_brw` family of rewrite
rules, and a model of the evaluation bridge of the pad widget.

Filesystem paths are modelled as lists of components; file contents as
lists of bytes; the directory scan of `read_dir` as a list of entry
names in directory order.
-/

namespace Papyrus

/-- A filesystem path, as its list of components. -/
abbrev FsPath := List String

/-- File content, as a list of bytes. -/
abbrev Content := List Nat

/-- The single-quote character, used by the `did not find file` message. -/
def squote : String := String.mk [Char.ofNat 39]

/-- Embeds the expression `format!("lib\x7b\x7d.rlib", crate_name)` that appears
both in `get_rlib_path` and in the staging copy of `link_external_crate`. -/
def lib_file_name (crate_name : String) : String :=
  "lib" ++ crate_name ++ ".rlib"

/-- The errors this subsystem can surface: the `NotFound` error constructed
in `get_rlib_path` (with its message), or an error propagated unchanged from
an operating-system call such as `fs::copy` (opaque to this code). -/
inductive IoError
  | notFound (msg : String)
  | osCallFailed (op : String) (path : FsPath)
deriving DecidableEq

/-- The parts of the filesystem state the linking code observes: a map from
paths to file contents, the path of the executable of the host process
(`std::env::current_exe`), and the entry names of the directory containing
that executable, in directory order (`fs::read_dir`, `Err` entries already
filtered out as in the source). -/
structure FileSystem where
  files : FsPath → Option Content
  exeFile : FsPath
  exeDirEntries : List String

/-- The directory containing the executable of the host: `exe.parent()`. -/
def FileSystem.exeDir (fs : FileSystem) : FsPath := fs.exeFile.dropLast

/-- Embeds `Path::ends_with`: the components of `suffix` are a suffix of the
components of `p`. -/
def pathEndsWith (p suffix : FsPath) : Bool := suffix.isSuffixOf p

/-- Embeds `get_rlib_path` of `src/pfh/linking.rs`: compute
`lib<crate_name>.rlib`, list the directory containing the executable of the
host, and return the first entry path ending with that filename, or a
`NotFound` error whose message is `did not find file: <quoted filename>`. -/
def get_rlib_path (fs : FileSystem) (crate_name : String) : Except IoError FsPath :=
  let lib_name := lib_file_name crate_name
  match (fs.exeDirEntries.map (fun entry => fs.exeDir ++ [entry])).find?
      (fun path => pathEndsWith path [lib_name]) with
  | some p => Except.ok p
  | none =>
      Except.error (IoError.notFound
        ("did not find file: " ++ squote ++ lib_name ++ squote))

/-- Embeds `fs::copy src dst` as used by `link_external_crate`: reads the
source and writes its bytes at the destination; a missing source makes the
operating-system call fail, and the error is propagated opaquely. -/
def fsCopy (fs : FileSystem) (src dst : FsPath) : Except IoError FileSystem :=
  match fs.files src with
  | none => Except.error (IoError.osCallFailed "copy" src)
  | some c =>
      Except.ok { fs with files := fun p => if p = dst then some c else fs.files p }

/-- Embeds the struct `LinkingConfiguration` of `src/pfh/linking.rs`: the
name of the external crate and the optional data-type descriptor string. -/
structure LinkingConfiguration where
  crate_name : String
  data_type : Option String
deriving DecidableEq

/-- Embeds the enum `LinkingArgument` of `src/pfh/linking.rs`. -/
inductive LinkingArgument
  | NoData
  | BorrowData
  | BorrowMutData
deriving DecidableEq

/-- Embeds the staging destination expression
`compilation_dir.as_ref().join(format!("lib\x7b\x7d.rlib", crate_name))`. -/
def staged_rlib_path (compilation_dir : FsPath) (crate_name : String) : FsPath :=
  compilation_dir ++ [lib_file_name crate_name]

/-- Embeds `LinkingConfiguration::link_external_crate`: resolve the rlib
(the explicit path when given, otherwise `get_rlib_path`), copy it into the
compilation directory under the canonical filename, and return the fresh
configuration with no data type attached.  Returns the updated filesystem
together with the configuration. -/
def LinkingConfiguration.link_external_crate (fs : FileSystem)
    (compilation_dir : FsPath) (crate_name : String) (rlib_path : Option FsPath) :
    Except IoError (FileSystem × LinkingConfiguration) :=
  match (match rlib_path with
         | some p => Except.ok p
         | none => get_rlib_path fs crate_name) with
  | Except.error e => Except.error e
  | Except.ok rlib =>
      match fsCopy fs rlib (staged_rlib_path compilation_dir crate_name) with
      | Except.error e => Except.error e
      | Except.ok fs2 =>
          Except.ok (fs2, { crate_name := crate_name, data_type := none })

/-- Embeds `LinkingConfiguration::with_data`: attach the descriptor string. -/
def LinkingConfiguration.with_data (c : LinkingConfiguration)
    (type_name : String) : LinkingConfiguration :=
  { c with data_type := some type_name }

/-- Embeds `LinkingConfiguration::construct_fn_args`. -/
def LinkingConfiguration.construct_fn_args (c : LinkingConfiguration)
    (arg_type : LinkingArgument) : String :=
  match c.data_type with
  | some d =>
      match arg_type with
      | LinkingArgument.BorrowData => "app_data: &" ++ c.crate_name ++ "::" ++ d
      | LinkingArgument.BorrowMutData =>
          "app_data: &mut " ++ c.crate_name ++ "::" ++ d
      | LinkingArgument.NoData => ""
  | none => ""

/-- State-passing embedding of the shared-borrow method
`construct_fn_args` (it takes `&self` in the source): the rendered string
together with the configuration left behind by the call. -/
def construct_fn_args_st (c : LinkingConfiguration) (a : LinkingArgument) :
    String × LinkingConfiguration :=
  (c.construct_fn_args a, c)

/-- Substring test on character lists: `subChars needle hay` is true when
`needle` occurs contiguously inside `hay`. -/
def subChars (needle : List Char) : List Char → Bool
  | [] => needle.isEmpty
  | c :: t => needle.isPrefixOf (c :: t) || subChars needle t

/-- Substring test on strings. -/
def strContains (hay needle : String) : Bool := subChars needle.data hay.data

/-! ### The argument shapes of the repl_data_brw rewrite rules

`repl_data_brw` and `repl_data_brw_mut` are declared with four rewrite
arms, tried top to bottom; an `expr` fragment variable matches any
expression, a string literal as well as a parenthesised tuple.  We model
an invocation as the list of its expression arguments (the trailing type
argument never influences arm selection, so it is omitted). -/

/-- An expression argument handed to the rewrite rules: either a string
literal (a crate name) or a tuple literal `(crate_name, rlib_path)`. -/
inductive ArgExpr
  | strLit (s : String)
  | tupleLit (crate_name rlib_path : String)
deriving DecidableEq

/-- The four arms of `repl_data_brw` (the arms of `repl_data_brw_mut` are
identical up to the borrow flavour): arm1 is `(crate_name, type)`, arm2 is
`((crate_name, rlib_path), type)`, arm3 is `(compilation_dir, crate_name,
type)` and arm4 is `(compilation_dir, (crate_name, rlib_path), type)`. -/
inductive BrwArm
  | arm1
  | arm2
  | arm3
  | arm4
deriving DecidableEq

/-- Whether the pattern of an arm matches an invocation: every expression
argument is matched by an `expr` fragment variable, so only the number of
arguments matters. -/
def armPatternMatches (arm : BrwArm) (args : List ArgExpr) : Bool :=
  match arm, args with
  | BrwArm.arm1, [_] => true
  | BrwArm.arm2, [_] => true
  | BrwArm.arm3, [_, _] => true
  | BrwArm.arm4, [_, _] => true
  | _, _ => false

/-- The arm chosen for an invocation: the first of the four, in source
order, whose pattern matches. -/
def repl_data_brw_dispatch (args : List ArgExpr) : Option BrwArm :=
  [BrwArm.arm1, BrwArm.arm2, BrwArm.arm3, BrwArm.arm4].find?
    (fun arm => armPatternMatches arm args)

/-- Whether the bindings an arm performs on its expression arguments
type-check: arm1 and arm3 bind the crate-name argument with type
`static str`, so it must be a string literal; arm2 and arm4 destructure it
as a `(static str, str)` tuple, so it must be a tuple literal; arm3 and
arm4 additionally bind the leading compilation-dir argument as `str`. -/
def armArgsTypecheck (arm : BrwArm) (args : List ArgExpr) : Bool :=
  match arm, args with
  | BrwArm.arm1, [ArgExpr.strLit _] => true
  | BrwArm.arm2, [ArgExpr.tupleLit _ _] => true
  | BrwArm.arm3, [ArgExpr.strLit _, ArgExpr.strLit _] => true
  | BrwArm.arm4, [ArgExpr.strLit _, ArgExpr.tupleLit _ _] => true
  | _, _ => false

/-- The build call an arm expands to, as the triple (compilation dir if
any, crate name expression, explicit rlib path if any); the arms that
destructure a tuple pass its second field as the explicit path. -/
def armBuildCall (arm : BrwArm) (args : List ArgExpr) :
    Option (Option String × String × Option String) :=
  match arm, args with
  | BrwArm.arm1, [ArgExpr.strLit n] => some (none, n, none)
  | BrwArm.arm2, [ArgExpr.tupleLit n p] => some (none, n, some p)
  | BrwArm.arm3, [ArgExpr.strLit d, ArgExpr.strLit n] => some (some d, n, none)
  | BrwArm.arm4, [ArgExpr.strLit d, ArgExpr.tupleLit n p] =>
      some (some d, n, some p)
  | _, _ => none

/-! ### The evaluation bridge of the pad widget -/

/-- Modelled from the spec: the phases of one evaluation of the bridge
(section 4.4); the drivers of `PadState` (`eval_state.rs`, `pad.rs`,
`repl_terminal.rs`) are not under `src/`, only the `PadState` declaration
with its `Arc<RwLock<Data>>` field is. -/
inductive EvalPhase
  | Idle
  | Compiling
  | Linked
  | Invoking
  | Completed
  | Failed
deriving DecidableEq

/-- Lock operations on the shared value behind the `RwLock`. -/
inductive LockEvent
  | acquireRead
  | releaseRead
  | acquireWrite
  | releaseWrite
deriving DecidableEq

/-- Modelled from the spec: one transition of the bridge state machine
`Idle → Compiling → Linked → Invoking → (Completed | Failed) → Idle`; the
lock matching the ownership mode is acquired on entering `Invoking` and
released on leaving it, whether the snippet completes or aborts. -/
def bridgeStep (mode : LinkingArgument) (aborts : Bool) :
    EvalPhase → EvalPhase × List LockEvent
  | EvalPhase.Idle => (EvalPhase.Compiling, [])
  | EvalPhase.Compiling => (EvalPhase.Linked, [])
  | EvalPhase.Linked =>
      (EvalPhase.Invoking,
        match mode with
        | LinkingArgument.NoData => []
        | LinkingArgument.BorrowData => [LockEvent.acquireRead]
        | LinkingArgument.BorrowMutData => [LockEvent.acquireWrite])
  | EvalPhase.Invoking =>
      (if aborts then EvalPhase.Failed else EvalPhase.Completed,
        match mode with
        | LinkingArgument.NoData => []
        | LinkingArgument.BorrowData => [LockEvent.releaseRead]
        | LinkingArgument.BorrowMutData => [LockEvent.releaseWrite])
  | EvalPhase.Completed => (EvalPhase.Idle, [])
  | EvalPhase.Failed => (EvalPhase.Idle, [])

/-- Modelled from the spec: run the bridge for `n` transitions from a
phase, collecting the emitted lock events in order. -/
def bridgeRun (mode : LinkingArgument) (aborts : Bool) :
    Nat → EvalPhase → EvalPhase × List LockEvent
  | 0, ph => (ph, [])
  | n + 1, ph =>
      let s := bridgeStep mode aborts ph
      let r := bridgeRun mode aborts n s.1
      (r.1, s.2 ++ r.2)

/-- The lock-event trace of one full evaluation (five transitions bring
`Idle` back to `Idle`). -/
def evalTrace (mode : LinkingArgument) (aborts : Bool) : List LockEvent :=
  (bridgeRun mode aborts 5 EvalPhase.Idle).2

/-! ### Concrete filesystems used to exercise the theorems -/

/-- A filesystem whose executable directory holds `libgeo.rlib` with
content `[7]`. -/
def fsGeo : FileSystem where
  files := fun p => if p = ["bin", "libgeo.rlib"] then some [7] else none
  exeFile := ["bin", "host"]
  exeDirEntries := ["libgeo.rlib"]

/-- A filesystem whose executable lives in directory `d1`, with an empty
executable directory and no files at all. -/
def fsEmptyDir : FileSystem where
  files := fun _ => none
  exeFile := ["d1", "host"]
  exeDirEntries := []

/-- A filesystem holding a single rlib at `a/libgeo.rlib` with content
`[1, 2]`. -/
def fsDup : FileSystem where
  files := fun p => if p = ["a", "libgeo.rlib"] then some [1, 2] else none
  exeFile := ["a", "h"]
  exeDirEntries := ["libgeo.rlib"]

theorem isPrefixOf_append_self (l post : List Char) :
    l.isPrefixOf (l ++ post) = true := by
  induction l with
  | nil => simp [List.isPrefixOf]
  | cons c t ih => simp [List.isPrefixOf, ih]

theorem subChars_here (needle hay : List Char)
    (h : needle.isPrefixOf hay = true) : subChars needle hay = true := by
  cases hay with
  | nil =>
      cases needle with
      | nil => rfl
      | cons c t => simp [List.isPrefixOf] at h
  | cons c t => simp [subChars, h]

theorem subChars_append (pre needle post : List Char) :
    subChars needle (pre ++ (needle ++ post)) = true := by
  induction pre with
  | nil =>
      rw [List.nil_append]
      exact subChars_here needle (needle ++ post) (isPrefixOf_append_self needle post)
  | cons c t ih =>
      rw [List.cons_append]
      show (needle.isPrefixOf (c :: (t ++ (needle ++ post))) ||
        subChars needle (t ++ (needle ++ post))) = true
      rw [ih]
      simp

theorem strContains_append (pre needle post : String) :
    strContains (pre ++ needle ++ post) needle = true := by
  unfold strContains
  rw [String.data_append, String.data_append, List.append_assoc]
  exact subChars_append pre.data needle.data post.data

theorem pathEndsWith_singleton (dir : FsPath) (e lib : String) :
    pathEndsWith (dir ++ [e]) [lib] = (lib == e) := by
  simp [pathEndsWith, List.isSuffixOf, List.isPrefixOf]

theorem find_entry (dir : FsPath) (entries : List String) (lib : String) :
    (entries.map (fun e => dir ++ [e])).find?
        (fun path => pathEndsWith path [lib]) =
      if lib ∈ entries then some (dir ++ [lib]) else none := by
  induction entries with
  | nil => simp
  | cons e t ih =>
      rw [List.map_cons, List.find?_cons, pathEndsWith_singleton]
      by_cases he : lib = e
      · subst he
        simp
      · have hbeq : (lib == e) = false := by simp [he]
        rw [hbeq, ih]
        simp [List.mem_cons, he]

theorem strContains_data (hay needle : String) (pre post : List Char)
    (h : hay.data = pre ++ (needle.data ++ post)) :
    strContains hay needle = true := by
  unfold strContains
  rw [h]
  exact subChars_append pre needle.data post

theorem get_rlib_path_found (fs : FileSystem) (m : String)
    (h : lib_file_name m ∈ fs.exeDirEntries) :
    get_rlib_path fs m = Except.ok (fs.exeDir ++ [lib_file_name m]) := by
  unfold get_rlib_path
  simp only [find_entry, if_pos h]

theorem get_rlib_path_not_found (fs : FileSystem) (m : String)
    (h : lib_file_name m ∉ fs.exeDirEntries) :
    get_rlib_path fs m =
      Except.error (IoError.notFound
        ("did not find file: " ++ squote ++ lib_file_name m ++ squote)) := by
  unfold get_rlib_path
  simp only [find_entry, if_neg h]

theorem notFound_msg_has_lib_file_name (m : String) :
    strContains ("did not find file: " ++ squote ++ lib_file_name m ++ squote)
      (lib_file_name m) = true :=
  strContains_append ("did not find file: " ++ squote) (lib_file_name m) squote

theorem notFound_msg_has_crate_name (m : String) :
    strContains ("did not find file: " ++ squote ++ lib_file_name m ++ squote)
      m = true := by
  apply strContains_data _ _
    (("did not find file: " ++ squote).data ++ "lib".data)
    (".rlib".data ++ squote.data)
  simp [lib_file_name, String.data_append, List.append_assoc]

theorem link_ok_cfg (fs : FileSystem) (dir : FsPath) (m : String)
    (rp : Option FsPath) (fs2 : FileSystem) (cfg : LinkingConfiguration)
    (h : LinkingConfiguration.link_external_crate fs dir m rp =
      Except.ok (fs2, cfg)) :
    cfg = { crate_name := m, data_type := none } := by
  unfold LinkingConfiguration.link_external_crate at h
  split at h
  · simp at h
  · split at h
    · simp at h
    · simp only [Except.ok.injEq, Prod.mk.injEq] at h
      exact h.2.symm

theorem fsCopy_none (fs : FileSystem) (src dst : FsPath)
    (h : fs.files src = none) :
    fsCopy fs src dst = Except.error (IoError.osCallFailed "copy" src) := by
  unfold fsCopy
  simp only [h]

theorem fsCopy_some (fs : FileSystem) (src dst : FsPath) (c : Content)
    (h : fs.files src = some c) :
    fsCopy fs src dst =
      Except.ok
        { fs with files := fun p => if p = dst then some c else fs.files p } := by
  unfold fsCopy
  simp only [h]

theorem fsCopy_error (fs : FileSystem) (src dst : FsPath) (e : IoError)
    (h : fsCopy fs src dst = Except.error e) :
    e = IoError.osCallFailed "copy" src := by
  unfold fsCopy at h
  split at h
  · simp only [Except.error.injEq] at h
    exact h.symm
  · simp at h

/-! ### The claims -/

/-- C1: for every configuration with module name `m`, `construct_fn_args`
returns the empty string for `NoData` regardless of descriptor presence,
exactly `app_data: &m::T` for `BorrowData` with descriptor `T` present,
exactly `app_data: &mut m::T` for `BorrowMutData` with descriptor `T`
present, and the empty string for `BorrowData` or `BorrowMutData` when no
descriptor is present. -/
theorem construct_fn_args_table (m T : String) (d : Option String) :
    LinkingConfiguration.construct_fn_args ⟨m, d⟩ LinkingArgument.NoData = "" ∧
    LinkingConfiguration.construct_fn_args ⟨m, some T⟩ LinkingArgument.BorrowData
      = "app_data: &" ++ m ++ "::" ++ T ∧
    LinkingConfiguration.construct_fn_args ⟨m, some T⟩ LinkingArgument.BorrowMutData
      = "app_data: &mut " ++ m ++ "::" ++ T ∧
    LinkingConfiguration.construct_fn_args ⟨m, none⟩ LinkingArgument.BorrowData
      = "" ∧
    LinkingConfiguration.construct_fn_args ⟨m, none⟩ LinkingArgument.BorrowMutData
      = "" := by
  refine ⟨?_, rfl, rfl, rfl, rfl⟩
  cases d <;> rfl

/-- C2: resolution with no explicit path succeeds exactly when a file named
`lib<m>.rlib` sits in the directory containing the executable of the host,
returning the first matching entry; otherwise it fails with a `NotFound`
error whose message contains the expected filename and hence `m`. -/
theorem get_rlib_path_resolution (fs : FileSystem) (m : String) :
    if lib_file_name m ∈ fs.exeDirEntries then
      get_rlib_path fs m = Except.ok (fs.exeDir ++ [lib_file_name m])
    else
      ∃ msg, get_rlib_path fs m = Except.error (IoError.notFound msg) ∧
        strContains msg (lib_file_name m) = true ∧
        strContains msg m = true := by
  by_cases h : lib_file_name m ∈ fs.exeDirEntries
  · rw [if_pos h]
    exact get_rlib_path_found fs m h
  · rw [if_neg h]
    exact ⟨_, get_rlib_path_not_found fs m h,
      notFound_msg_has_lib_file_name m, notFound_msg_has_crate_name m⟩

/-- C3: when resolution succeeds, link_external_crate copies the resolved
artifact to `<dir>/lib<m>.rlib`, and the artifact path derived from the
returned configuration (destination directory joined with the canonical
filename for its crate name) is that staged location, holding the staged
bytes. -/
theorem link_external_crate_stages (fs : FileSystem) (dir : FsPath)
    (m : String) (c : Content)
    (hmem : lib_file_name m ∈ fs.exeDirEntries)
    (hsrc : fs.files (fs.exeDir ++ [lib_file_name m]) = some c) :
    ∃ fs2 cfg,
      LinkingConfiguration.link_external_crate fs dir m none =
        Except.ok (fs2, cfg) ∧
      cfg.crate_name = m ∧
      fs2.files (staged_rlib_path dir cfg.crate_name) = some c ∧
      staged_rlib_path dir cfg.crate_name = dir ++ ["lib" ++ m ++ ".rlib"] := by
  refine ⟨{ fs with files := fun p =>
      if p = staged_rlib_path dir m then some c else fs.files p },
    { crate_name := m, data_type := none }, ?_, rfl, ?_, rfl⟩
  · unfold LinkingConfiguration.link_external_crate
    simp only [get_rlib_path_found fs m hmem,
      fsCopy_some fs (fs.exeDir ++ [lib_file_name m]) (staged_rlib_path dir m) c hsrc]
  · simp

/-- C3 witness: the theorem applied to a concrete filesystem holding
`libgeo.rlib` with bytes `[7]` next to the executable. -/
theorem link_external_crate_stages_witness :
    (lib_file_name "geo" ∈ fsGeo.exeDirEntries) ∧
    (fsGeo.files (fsGeo.exeDir ++ [lib_file_name "geo"]) = some [7]) ∧
    (∃ fs2 cfg,
      LinkingConfiguration.link_external_crate fsGeo ["tmp", "build"] "geo" none =
        Except.ok (fs2, cfg) ∧
      cfg.crate_name = "geo" ∧
      fs2.files (staged_rlib_path ["tmp", "build"] cfg.crate_name) = some [7] ∧
      staged_rlib_path ["tmp", "build"] cfg.crate_name =
        ["tmp", "build"] ++ ["lib" ++ "geo" ++ ".rlib"]) :=
  ⟨by decide, by decide,
    link_external_crate_stages fsGeo ["tmp", "build"] "geo" [7]
      (by decide) (by decide)⟩

/-- C4: the rlib-path shapes of the repl_data_brw rules are dead: the tuple
invocation dispatches to arm1 (first match wins, an expr fragment also
matches a tuple), whose crate-name binding does not type-check, although
arm2 would accept it and reduce it to a build call with an explicit path;
the same happens for the shape with a compilation dir, captured by arm3
instead of arm4. -/
theorem repl_data_brw_rlib_shapes_unreachable :
    repl_data_brw_dispatch [ArgExpr.tupleLit "some_lib" "/target/libsome_lib.rlib"]
      = some BrwArm.arm1 ∧
    armArgsTypecheck BrwArm.arm1
      [ArgExpr.tupleLit "some_lib" "/target/libsome_lib.rlib"] = false ∧
    armArgsTypecheck BrwArm.arm2
      [ArgExpr.tupleLit "some_lib" "/target/libsome_lib.rlib"] = true ∧
    armBuildCall BrwArm.arm2
      [ArgExpr.tupleLit "some_lib" "/target/libsome_lib.rlib"]
      = some (none, "some_lib", some "/target/libsome_lib.rlib") ∧
    repl_data_brw_dispatch
      [ArgExpr.strLit "cdir", ArgExpr.tupleLit "some_lib" "/target/libsome_lib.rlib"]
      = some BrwArm.arm3 ∧
    armArgsTypecheck BrwArm.arm3
      [ArgExpr.strLit "cdir", ArgExpr.tupleLit "some_lib" "/target/libsome_lib.rlib"]
      = false ∧
    armArgsTypecheck BrwArm.arm4
      [ArgExpr.strLit "cdir", ArgExpr.tupleLit "some_lib" "/target/libsome_lib.rlib"]
      = true := by
  decide

/-- C5: every BorrowMutData evaluation acquires the write lock exactly once
before entering Invoking and releases it exactly once on leaving Invoking,
on both the Completed path and the Failed path: the full trace is exactly
one acquire followed by one release, and the run returns to Idle. -/
theorem exclusive_lock_discipline (aborts : Bool) :
    (evalTrace LinkingArgument.BorrowMutData aborts).count LockEvent.acquireWrite
      = 1 ∧
    (evalTrace LinkingArgument.BorrowMutData aborts).count LockEvent.releaseWrite
      = 1 ∧
    evalTrace LinkingArgument.BorrowMutData aborts
      = [LockEvent.acquireWrite, LockEvent.releaseWrite] ∧
    (bridgeRun LinkingArgument.BorrowMutData aborts 4 EvalPhase.Idle).1
      = (if aborts then EvalPhase.Failed else EvalPhase.Completed) ∧
    (bridgeRun LinkingArgument.BorrowMutData aborts 5 EvalPhase.Idle).1
      = EvalPhase.Idle := by
  cases aborts <;> decide

/-- C6 counterexample: at a filesystem whose searched directory is `d1`,
the NotFound message carries the expected filename but does not mention
`d1`, so it does not name the directory searched. -/
theorem notFound_msg_lacks_directory :
    get_rlib_path fsEmptyDir "geo" =
      Except.error (IoError.notFound
        ("did not find file: " ++ squote ++ "libgeo.rlib" ++ squote)) ∧
    fsEmptyDir.exeDir = ["d1"] ∧
    strContains ("did not find file: " ++ squote ++ "libgeo.rlib" ++ squote) "d1"
      = false := by
  refine ⟨rfl, rfl, by decide⟩

/-- C6 (amended): when no matching artifact exists and no explicit path was
given, the surfaced failure carries a message naming the missing artifact
(the expected filename, and hence the module name), though not the
directory that was searched. -/
theorem notFound_msg_names_artifact (fs : FileSystem) (m : String)
    (h : lib_file_name m ∉ fs.exeDirEntries) :
    ∃ msg, get_rlib_path fs m = Except.error (IoError.notFound msg) ∧
      strContains msg (lib_file_name m) = true :=
  ⟨_, get_rlib_path_not_found fs m h, notFound_msg_has_lib_file_name m⟩

/-- C6 witness: the amended theorem applied to the concrete empty
directory. -/
theorem notFound_msg_names_artifact_witness :
    (lib_file_name "geo" ∉ fsEmptyDir.exeDirEntries) ∧
    (∃ msg, get_rlib_path fsEmptyDir "geo" =
        Except.error (IoError.notFound msg) ∧
      strContains msg (lib_file_name "geo") = true) :=
  ⟨by decide, notFound_msg_names_artifact fsEmptyDir "geo" (by decide)⟩

/-- C7: an explicit rlib path is used unchecked: the outcome of
link_external_crate with an explicit path is exactly the outcome of the
staging copy, every failure is the propagated OS error of that copy (never
the constructed NotFound resolution error), and a bad explicit path fails
at the copy. -/
theorem explicit_path_unchecked (fs : FileSystem) (dir : FsPath) (m : String)
    (p : FsPath) :
    (LinkingConfiguration.link_external_crate fs dir m (some p) =
      match fsCopy fs p (staged_rlib_path dir m) with
      | Except.error e => Except.error e
      | Except.ok fs2 =>
          Except.ok (fs2, { crate_name := m, data_type := none })) ∧
    (∀ e, LinkingConfiguration.link_external_crate fs dir m (some p) =
        Except.error e → e = IoError.osCallFailed "copy" p) ∧
    (fs.files p = none →
      LinkingConfiguration.link_external_crate fs dir m (some p) =
        Except.error (IoError.osCallFailed "copy" p)) := by
  refine ⟨rfl, ?_, ?_⟩
  · intro e h
    rw [show LinkingConfiguration.link_external_crate fs dir m (some p) =
        match fsCopy fs p (staged_rlib_path dir m) with
        | Except.error e => Except.error e
        | Except.ok fs2 =>
            Except.ok (fs2, { crate_name := m, data_type := none }) from rfl] at h
    cases hc : fsCopy fs p (staged_rlib_path dir m) with
    | error e2 =>
        rw [hc] at h
        simp only [Except.error.injEq] at h
        rw [← h]
        exact fsCopy_error fs p (staged_rlib_path dir m) e2 hc
    | ok f2 =>
        rw [hc] at h
        simp at h
  · intro h0
    show (match fsCopy fs p (staged_rlib_path dir m) with
      | Except.error e => Except.error e
      | Except.ok fs2 =>
          Except.ok (fs2,
            ({ crate_name := m, data_type := none } : LinkingConfiguration))) =
      Except.error (IoError.osCallFailed "copy" p)
    rw [fsCopy_none fs p (staged_rlib_path dir m) h0]

/-- C7 witness: the theorem applied to a concrete missing explicit path. -/
theorem explicit_path_unchecked_witness :
    (fsEmptyDir.files ["missing", "libgeo.rlib"] = none) ∧
    LinkingConfiguration.link_external_crate fsEmptyDir ["out"] "geo"
        (some ["missing", "libgeo.rlib"]) =
      Except.error (IoError.osCallFailed "copy" ["missing", "libgeo.rlib"]) :=
  ⟨rfl, (explicit_path_unchecked fsEmptyDir ["out"] "geo"
    ["missing", "libgeo.rlib"]).2.2 rfl⟩

/-- C8: staging is idempotent: copying the same source artifact into the
destination twice succeeds and leaves the destination file with content
byte-identical to staging it once. -/
theorem stage_idempotent (fs : FileSystem) (src dir : FsPath) (m : String)
    (c : Content) (h : fs.files src = some c) :
    ∃ fs1 fs2,
      fsCopy fs src (staged_rlib_path dir m) = Except.ok fs1 ∧
      fsCopy fs1 src (staged_rlib_path dir m) = Except.ok fs2 ∧
      fs1.files (staged_rlib_path dir m) = some c ∧
      fs2.files (staged_rlib_path dir m)
        = fs1.files (staged_rlib_path dir m) := by
  have h1 : ({ fs with files := fun p =>
      if p = staged_rlib_path dir m then some c else fs.files p } :
      FileSystem).files src = some c := by
    by_cases hs : src = staged_rlib_path dir m <;> simp [hs, h]
  refine ⟨_, _, fsCopy_some fs src (staged_rlib_path dir m) c h,
    fsCopy_some _ src (staged_rlib_path dir m) c h1, ?_, ?_⟩
  · simp
  · simp

/-- C8 witness: the theorem applied to the concrete filesystem `fsDup`. -/
theorem stage_idempotent_witness :
    (fsDup.files ["a", "libgeo.rlib"] = some [1, 2]) ∧
    (∃ fs1 fs2,
      fsCopy fsDup ["a", "libgeo.rlib"] (staged_rlib_path ["out"] "geo") =
        Except.ok fs1 ∧
      fsCopy fs1 ["a", "libgeo.rlib"] (staged_rlib_path ["out"] "geo") =
        Except.ok fs2 ∧
      fs1.files (staged_rlib_path ["out"] "geo") = some [1, 2] ∧
      fs2.files (staged_rlib_path ["out"] "geo")
        = fs1.files (staged_rlib_path ["out"] "geo")) :=
  ⟨rfl, stage_idempotent fsDup ["a", "libgeo.rlib"] ["out"] "geo" [1, 2] rfl⟩

/-- C9: a second with_data call replaces the previously attached descriptor
and leaves the crate name unchanged, and construct_fn_args leaves the
configuration it observes unchanged (state-passing reading of the
shared-borrow method). -/
theorem with_data_replaces_and_frame (c : LinkingConfiguration)
    (t1 t2 : String) (a : LinkingArgument) :
    (c.with_data t1).with_data t2
      = { crate_name := c.crate_name, data_type := some t2 } ∧
    ((c.with_data t1).with_data t2).crate_name = c.crate_name ∧
    construct_fn_args_st c a = (c.construct_fn_args a, c) :=
  ⟨rfl, rfl, rfl⟩

/-- C10: every configuration returned by a successful build carries no
data-type descriptor, so construct_fn_args renders the empty string for
every ownership mode until with_data is called. -/
theorem fresh_build_no_descriptor (fs : FileSystem) (dir : FsPath)
    (m : String) (rp : Option FsPath) :
    match LinkingConfiguration.link_external_crate fs dir m rp with
    | Except.ok pr =>
        pr.2.data_type = none ∧ ∀ a, pr.2.construct_fn_args a = ""
    | Except.error _ => True := by
  cases hl : LinkingConfiguration.link_external_crate fs dir m rp with
  | error e => trivial
  | ok pr =>
      have hc : pr.2 = { crate_name := m, data_type := none } :=
        link_ok_cfg fs dir m rp pr.1 pr.2 (by rw [hl])
      show pr.2.data_type = none ∧ ∀ a, pr.2.construct_fn_args a = ""
      rw [hc]
      exact ⟨rfl, fun a => rfl⟩

end Papyrus
